import Mathlib

/-!
Verification of the `its_live` repository: a single Jupyter notebook
(`notebooks/ITS_LIVE_ipyLeaflet_zarr.ipynb`) that drives an interactive
glacier-velocity widget.  The notebook is glue code: it constructs the
widget (`ITSLIVE()`), applies a configuration mapping (`set_config`),
renders it (`display`), clears and plots points
(`clear_points`, `ax.clear`, `plot_point_on_fig`, `fig.canvas.draw`),
and reads the mapping of open zarr datacubes (`dct.open_cubes`).

The widget class itself (`velocity_widget.ITSLIVE`) is imported by the
notebook but its source is not part of this repository, so its behavior
is modelled here from the specification's §4.1 interface contract and
§3 data model.  The notebook's literal data (the configuration mapping,
the point list, the coordinate-system code) is embedded verbatim from
the notebook cells.
-/

/-- A configuration value in the notebook's configuration mapping:
the notebook uses strings (`"v"`, `"points"`), integers (`1`, `90`)
and booleans (`False`). -/
inductive ConfigValue where
  | str (s : String)
  | int (n : Int)
  | bool (b : Bool)
deriving DecidableEq, Repr

/-- A configuration mapping: an ordered association of keys to values,
as a Python dict literal is. -/
abbrev Config := List (String × ConfigValue)

/-- Modelled from the spec: the fixed recognized configuration keys of §3 —
`plot`, `min_separation_days`, `max_separation_days`, `color_by`, `verbose`. -/
def recognizedKeys : List String :=
  ["plot", "min_separation_days", "max_separation_days", "color_by", "verbose"]

/-- Modelled from the spec: the widget's default configuration (the widget
source is not in the repository; §4.1 only states that construction yields
"a widget instance with default configuration", so a default binding for
each of the five recognized keys is chosen here). -/
def defaultConfig : Config :=
  [("plot", ConfigValue.str "v"),
   ("min_separation_days", ConfigValue.int 5),
   ("max_separation_days", ConfigValue.int 120),
   ("color_by", ConfigValue.str "satellite"),
   ("verbose", ConfigValue.bool false)]

/-- The notebook's configuration literal (cell `cdc8e3f9`):
`{"plot": "v", "min_separation_days": 1, "max_separation_days": 90,
"color_by": "points", "verbose": False}`. -/
def config : Config :=
  [("plot", ConfigValue.str "v"),
   ("min_separation_days", ConfigValue.int 1),
   ("max_separation_days", ConfigValue.int 90),
   ("color_by", ConfigValue.str "points"),
   ("verbose", ConfigValue.bool false)]

/-- A lazily-loaded dataset handle (an xarray dataset opened from a zarr
store): it carries its URI and a descriptive printable summary
representation (the table of metadata and variables jupyter renders). -/
structure CubeHandle where
  uri : String
  summary : String
deriving DecidableEq, Repr

/-- Modelled from the spec: materializing (opening) the remote datacube at
`uri` — the multi-second xarray metadata load of §4.1.  The resulting handle
exposes a descriptive printable summary. -/
def loadCube (uri : String) : CubeHandle :=
  ⟨uri, "<xarray.Dataset> " ++ uri⟩

/-- The open-cubes mapping (`dct.open_cubes`): an insertion-ordered
association from dataset URI to cached dataset handle. -/
structure CubeStore where
  cache : List (String × CubeHandle)
deriving DecidableEq, Repr

/-- Association-list lookup underlying the open-cubes mapping. -/
def findCube : List (String × CubeHandle) → String → Option CubeHandle
  | [], _ => none
  | e :: rest, uri => if e.1 = uri then some e.2 else findCube rest uri

/-- Reading the open-cubes mapping without forcing a load (a Python
`dict.get`): `none` when the URI is not an open cube. -/
def getCube (st : CubeStore) (uri : String) : Option CubeHandle :=
  findCube st.cache uri

/-- Modelled from the spec: indexing the open-cubes mapping by a URI —
load-on-first-access, then the cached handle on every subsequent access
(§4.1: "indexing triggers load-on-first-access ... then returns a cached
handle on subsequent access"). -/
def indexCube (st : CubeStore) (uri : String) : CubeHandle × CubeStore :=
  match findCube st.cache uri with
  | some h => (h, st)
  | none =>
      let h := loadCube uri
      (h, ⟨st.cache ++ [(uri, h)]⟩)

/-- The key list of the open-cubes mapping, in insertion order
(`list(zarr_cubes_dict.keys())`). -/
def listKeys (st : CubeStore) : List String :=
  st.cache.map Prod.fst

/-- A remote-storage URI string: the datacubes live on AWS S3, so a valid
key is an `s3://` URI. -/
def isRemoteURI (s : String) : Bool :=
  "s3://".data.isPrefixOf s.data

/-- A longitude/latitude bounding box: the spatial coverage of one
datacube. -/
structure Region where
  lonMin : Rat
  lonMax : Rat
  latMin : Rat
  latMax : Rat
deriving DecidableEq, Repr

/-- Whether a (longitude, latitude) point falls inside a coverage box. -/
def Region.containsB (r : Region) (p : Rat × Rat) : Bool :=
  decide (r.lonMin ≤ p.1) && decide (p.1 ≤ r.lonMax) &&
  decide (r.latMin ≤ p.2) && decide (p.2 ≤ r.latMax)

/-- Modelled from the spec: the datacube catalog the widget consults — the
notebook's overview names coverage over parts of Greenland, Svalbard and
Alaska, with the data stored as zarr cubes on AWS S3.  Each entry is the
cube's S3 URI together with its spatial coverage. -/
def catalog : List (String × Region) :=
  [("s3://its-live-data/datacubes/greenland.zarr", ⟨-55, -45, 68, 72⟩),
   ("s3://its-live-data/datacubes/svalbard.zarr", ⟨10, 30, 76, 81⟩),
   ("s3://its-live-data/datacubes/alaska.zarr", ⟨-150, -130, 58, 64⟩)]

/-- The URIs of the catalog's datacubes. -/
def catalogKeys : List String :=
  catalog.map Prod.fst

/-- The URIs of the datacubes whose spatial coverage holds point `p`. -/
def urisCovering (p : Rat × Rat) : List String :=
  (catalog.filter (fun e => e.2.containsB p)).map Prod.fst

/-- Open (into the cache) every datacube whose coverage holds `p`. -/
def openCovering (p : Rat × Rat) (st : CubeStore) : CubeStore :=
  (urisCovering p).foldl (fun s u => (indexCube s u).2) st

/-- The widget state visible at the notebook's call sites: the applied
configuration, the points selected by map interaction, the markers drawn
on the plot axes (`fig`/`ax`), and the open-cubes mapping
(`dct.open_cubes`). -/
structure Widget where
  config : Config
  points : List (Rat × Rat)
  markers : List (Rat × Rat)
  cubes : CubeStore
deriving DecidableEq, Repr

/-- Modelled from the spec: `ITSLIVE()` — construction yields a widget with
the default configuration and an empty point selection (§4.1). -/
def ITSLIVE : Widget :=
  { config := defaultConfig, points := [], markers := [], cubes := ⟨[]⟩ }

/-- Replace the binding of key `k` in a configuration. -/
def setKey (cfg : Config) (k : String) (v : ConfigValue) : Config :=
  cfg.map (fun e => if e.1 = k then (k, v) else e)

/-- Apply a configuration mapping over an existing configuration,
key by key. -/
def applyConfig (c : Config) (cfg : Config) : Config :=
  c.foldl (fun acc e => setKey acc e.1 e.2) cfg

/-- Modelled from the spec: `set_config(options)` applies the configuration
mapping of §3 and fails on unrecognized keys (§4.1: "fails (or warns) on
unrecognized keys"). -/
def set_config (c : Config) (w : Widget) : Except String Widget :=
  if c.all (fun e => recognizedKeys.contains e.1) then
    Except.ok { w with config := applyConfig c w.config }
  else
    Except.error "unrecognized configuration key"

/-- Modelled from the spec: `display(render_sidecar)` renders the
interactive map/plot pane, in a sidecar panel when the flag is true; no
failure behavior is specified, and rendering does not change the widget
state. -/
def display (renderSidecar : Bool) (w : Widget) : Except String (Bool × Widget) :=
  Except.ok (renderSidecar, w)

/-- Modelled from the spec: `clear_points()` discards the points selected
via map interaction; side effect only, no return value (§4.1). -/
def clear_points (w : Widget) : Unit × Widget :=
  ((), { w with points := [] })

/-- Modelled from the spec: `ax.clear()` — clearing the plot axes removes
the markers drawn on the figure. -/
def ax_clear (w : Widget) : Widget :=
  { w with markers := [] }

/-- The coordinate-reference-system codes the model interprets: the spec's
example (and the notebook's only call) uses EPSG `"4326"`, raw
longitude/latitude. -/
def knownCRS : List String := ["4326"]

/-- Modelled from the spec: `plot_point_on_fig(coordinate_pair, crs_code)`
adds a marker for the coordinate, interpreted under the given CRS code, to
the current plot figure (§4.1); a code the model cannot interpret is an
error. -/
def plot_point_on_fig (p : Rat × Rat) (crs : String) (w : Widget) : Except String Widget :=
  if knownCRS.contains crs then
    Except.ok { w with markers := w.markers ++ [p] }
  else
    Except.error ("unknown CRS code: " ++ crs)

/-- Modelled from the spec: `fig.canvas.draw()` — the drawing-surface
refresh operation consumed by the notebook to force a redraw; no failure
behavior is specified. -/
def canvas_draw (_ : Widget) : Except String Unit :=
  Except.ok ()

/-- Modelled from the spec: selecting a point by map interaction
(double-click) records the point and opens every catalog datacube whose
spatial coverage holds it (§3: "entries appear when the widget
fetches/opens a dataset in response to a user-selected point falling
within that dataset's spatial coverage"). -/
def select_point (p : Rat × Rat) (w : Widget) : Widget :=
  { w with points := w.points ++ [p], cubes := openCovering p w.cubes }

/-- The notebook's literal point list (cell `e1456a0d`):
`locations = [(-50,70), (-49,70), (-49.5, 70)]`. -/
def locations : List (Rat × Rat) :=
  [(-50, 70), (-49, 70), (mkRat (-99) 2, 70)]

/-- The notebook's plotting loop (cell `e1456a0d`): plot each location in
list order under CRS code `"4326"`, stopping at the first error. -/
def runPlots (ps : List (Rat × Rat)) (w : Widget) : Except String Widget :=
  ps.foldlM (fun acc p => plot_point_on_fig p "4326" acc) w

/-- One observable widget transition at the notebook's call sites. -/
inductive Step : Widget → Widget → Prop where
  | setConfigStep (c : Config) (w w' : Widget)
      (h : set_config c w = Except.ok w') : Step w w'
  | clearStep (w : Widget) : Step w (clear_points w).2
  | axClearStep (w : Widget) : Step w (ax_clear w)
  | plotStep (p : Rat × Rat) (crs : String) (w w' : Widget)
      (h : plot_point_on_fig p crs w = Except.ok w') : Step w w'
  | selectStep (p : Rat × Rat) (w : Widget) : Step w (select_point p w)

/-- Widget states reachable from construction by the notebook's
operations. -/
inductive Reachable : Widget → Prop where
  | init : Reachable ITSLIVE
  | step (w w' : Widget) : Reachable w → Step w w' → Reachable w'

/-- Invariant of the open-cubes mapping: every cached entry holds the
loaded handle for its key, and every key comes from the datacube
catalog. -/
def CubesGood (st : CubeStore) : Prop :=
  ∀ e ∈ st.cache, e.2 = loadCube e.1 ∧ e.1 ∈ catalogKeys

/-- The summary a loaded cube exposes is never the empty string. -/
lemma loadCube_summary_ne (uri : String) : (loadCube uri).summary ≠ "" := by
  intro h
  have h2 := congrArg String.length h
  simp [loadCube, String.length_append] at h2
  exact absurd h2.1 (by decide)

/-- Looking a key up in an extended cache succeeds when the key was absent
before the extension. -/
lemma findCube_append_self (l : List (String × CubeHandle)) (uri : String)
    (h : CubeHandle) (hl : findCube l uri = none) :
    findCube (l ++ [(uri, h)]) uri = some h := by
  induction l with
  | nil => simp [findCube]
  | cons e rest ih =>
      by_cases he : e.1 = uri
      · simp [findCube, he] at hl
      · simp only [List.cons_append, findCube, if_neg he] at hl ⊢
        exact ih hl

/-- A successful cache lookup returns an entry of the cache. -/
lemma findCube_mem (l : List (String × CubeHandle)) (uri : String)
    (h : CubeHandle) (hf : findCube l uri = some h) : (uri, h) ∈ l := by
  induction l with
  | nil => simp [findCube] at hf
  | cons e rest ih =>
      by_cases he : e.1 = uri
      · rw [findCube, if_pos he] at hf
        injection hf with hf
        have hee : e = (uri, h) := by
          cases e
          simp_all
        rw [← hee]
        exact List.mem_cons_self _ _
      · rw [findCube, if_neg he] at hf
        exact List.mem_cons_of_mem _ (ih hf)

/-- Indexing the open-cubes mapping by a catalog URI preserves the cache
invariant. -/
lemma cubesGood_indexCube {st : CubeStore} {uri : String}
    (hg : CubesGood st) (hk : uri ∈ catalogKeys) :
    CubesGood (indexCube st uri).2 := by
  unfold indexCube
  cases hf : findCube st.cache uri with
  | some h => exact hg
  | none =>
      intro e he
      rcases List.mem_append.mp he with h1 | h1
      · exact hg e h1
      · simp at h1
        subst h1
        exact ⟨rfl, hk⟩

/-- Opening a list of catalog URIs preserves the cache invariant. -/
lemma cubesGood_foldl (us : List String) (st : CubeStore)
    (hg : CubesGood st) (hus : ∀ u ∈ us, u ∈ catalogKeys) :
    CubesGood (us.foldl (fun s u => (indexCube s u).2) st) := by
  induction us generalizing st with
  | nil => exact hg
  | cons u rest ih =>
      simp only [List.foldl_cons]
      exact ih _ (cubesGood_indexCube hg (hus u (by simp)))
        (fun v hv => hus v (by simp [hv]))

/-- Every URI covering a point is a catalog URI. -/
lemma urisCovering_sub {p : Rat × Rat} {u : String}
    (hu : u ∈ urisCovering p) : u ∈ catalogKeys := by
  rcases List.mem_map.mp hu with ⟨e, he, rfl⟩
  exact List.mem_map_of_mem Prod.fst (List.mem_of_mem_filter he)

/-- Opening every datacube covering a point preserves the cache
invariant. -/
lemma cubesGood_openCovering (p : Rat × Rat) (st : CubeStore)
    (hg : CubesGood st) : CubesGood (openCovering p st) :=
  cubesGood_foldl _ _ hg (fun _ hu => urisCovering_sub hu)

/-- Applying a configuration does not touch the open-cubes mapping. -/
lemma set_config_cubes {c : Config} {w w' : Widget}
    (h : set_config c w = Except.ok w') : w'.cubes = w.cubes := by
  unfold set_config at h
  split at h
  · injection h with h
    subst h
    rfl
  · injection h

/-- Plotting a point does not touch the open-cubes mapping. -/
lemma plot_cubes {p : Rat × Rat} {crs : String} {w w' : Widget}
    (h : plot_point_on_fig p crs w = Except.ok w') : w'.cubes = w.cubes := by
  unfold plot_point_on_fig at h
  split at h
  · injection h with h
    subst h
    rfl
  · injection h

/-- The cache invariant holds in every reachable widget state. -/
lemma reachable_cubesGood {w : Widget} (hr : Reachable w) :
    CubesGood w.cubes := by
  induction hr with
  | init => intro e he; simp [ITSLIVE] at he
  | step w w' _ hs ih =>
      cases hs with
      | setConfigStep c _ _ h => rw [set_config_cubes h]; exact ih
      | clearStep _ => exact ih
      | axClearStep _ => exact ih
      | plotStep p crs _ _ h => rw [plot_cubes h]; exact ih
      | selectStep p _ => exact cubesGood_openCovering p _ ih

/-- Every catalog URI is a valid remote-storage URI. -/
lemma catalogKeys_valid : ∀ k ∈ catalogKeys, isRemoteURI k = true := by decide

/-- A concrete reachable widget state: one map selection at (-50, 70),
which falls in the Greenland datacube's coverage, so one cube is open. -/
lemma reach_demo : Reachable (select_point (-50, 70) ITSLIVE) :=
  Reachable.step _ _ Reachable.init (Step.selectStep _ _)

/-- Claim C1: applying the notebook's configuration mapping
`{plot: "v", min_separation_days: 1, max_separation_days: 90,
color_by: "points", verbose: false}` via `set_config` does not raise,
and the subsequent `display(render_sidecar=True)` call also does not
raise. -/
theorem C1_set_config_display_ok (w : Widget) :
    ∃ w', set_config config w = Except.ok w' ∧
      ∃ r, display true w' = Except.ok r :=
  ⟨_, rfl, _, rfl⟩

/-- Claim C2: plotting the notebook's literal point list
`[(-50,70), (-49,70), (-49.5,70)]` under CRS code `"4326"`, one pair at a
time in list order, does not raise for any of the three calls, and the
final `fig.canvas.draw()` call succeeds. -/
theorem C2_plot_locations_ok (w : Widget) :
    ∃ w', runPlots locations w = Except.ok w' ∧ canvas_draw w' = Except.ok () :=
  ⟨_, rfl, rfl⟩

/-- Claim C3: indexing `dct.open_cubes` by a dataset URI triggers a load on
first access, and every subsequent access with the same key returns the
cached handle — the same handle as the first access — so repeated indexing
by the same key is idempotent in its result. -/
theorem C3_index_cached (st : CubeStore) (uri : String)
    (hfresh : getCube st uri = none) :
    (indexCube st uri).1 = loadCube uri ∧
      indexCube (indexCube st uri).2 uri = indexCube st uri := by
  unfold getCube at hfresh
  constructor
  · simp [indexCube, hfresh]
  · simp [indexCube, hfresh, findCube_append_self st.cache uri (loadCube uri) hfresh]

theorem C3_witness :
    getCube ⟨[]⟩ "s3://its-live-data/datacubes/greenland.zarr" = none ∧
      ((indexCube ⟨[]⟩ "s3://its-live-data/datacubes/greenland.zarr").1 =
          loadCube "s3://its-live-data/datacubes/greenland.zarr" ∧
        indexCube (indexCube ⟨[]⟩ "s3://its-live-data/datacubes/greenland.zarr").2
            "s3://its-live-data/datacubes/greenland.zarr" =
          indexCube ⟨[]⟩ "s3://its-live-data/datacubes/greenland.zarr") :=
  ⟨rfl, C3_index_cached _ _ rfl⟩

/-- Claim C4: in every reachable state in which at least one remote dataset
has been opened, the open-cubes mapping's key set is non-empty and every
key in it is a valid remote-storage URI string. -/
theorem C4_open_keys_valid (w : Widget) (hr : Reachable w)
    (hne : w.cubes.cache ≠ []) :
    listKeys w.cubes ≠ [] ∧ ∀ k ∈ listKeys w.cubes, isRemoteURI k = true := by
  constructor
  · intro h
    exact hne (List.map_eq_nil_iff.mp h)
  · intro k hk
    rcases List.mem_map.mp hk with ⟨e, he, rfl⟩
    exact catalogKeys_valid e.1 (reachable_cubesGood hr e he).2

theorem C4_witness :
    Reachable (select_point (-50, 70) ITSLIVE) ∧
      (select_point (-50, 70) ITSLIVE).cubes.cache ≠ [] ∧
      (listKeys (select_point (-50, 70) ITSLIVE).cubes ≠ [] ∧
        ∀ k ∈ listKeys (select_point (-50, 70) ITSLIVE).cubes,
          isRemoteURI k = true) :=
  ⟨reach_demo, by decide, C4_open_keys_valid _ reach_demo (by decide)⟩

/-- Claim C5: in every reachable state with a non-empty open-cubes mapping,
indexing the mapping by its first key (element 0 of its key list) returns,
without raising, a handle exposing a non-empty printable summary
representation. -/
theorem C5_first_cube_summary (w : Widget) (hr : Reachable w)
    (hne : w.cubes.cache ≠ []) :
    ∃ k hd, (listKeys w.cubes)[0]? = some k ∧
      getCube w.cubes k = some hd ∧ hd.summary ≠ "" := by
  cases hcache : w.cubes.cache with
  | nil => exact absurd hcache hne
  | cons e rest =>
      refine ⟨e.1, e.2, ?_, ?_, ?_⟩
      · simp [listKeys, hcache]
      · simp [getCube, hcache, findCube]
      · have hg := reachable_cubesGood hr e (by rw [hcache]; exact List.mem_cons_self _ _)
        rw [hg.1]
        exact loadCube_summary_ne e.1

theorem C5_witness :
    Reachable (select_point (-50, 70) ITSLIVE) ∧
      (select_point (-50, 70) ITSLIVE).cubes.cache ≠ [] ∧
      ∃ k hd, (listKeys (select_point (-50, 70) ITSLIVE).cubes)[0]? = some k ∧
        getCube (select_point (-50, 70) ITSLIVE).cubes k = some hd ∧
        hd.summary ≠ "" :=
  ⟨reach_demo, by decide, C5_first_cube_summary _ reach_demo (by decide)⟩

/-- Claim C6: after `clear_points()` followed by `ax.clear()`, a subsequent
`plot_point_on_fig` call (with the notebook's CRS code) succeeds: the two
clearing operations leave no residual inconsistent plot state. -/
theorem C6_clear_then_plot_ok (w : Widget) (p : Rat × Rat) :
    ∃ w', plot_point_on_fig p "4326" (ax_clear (clear_points w).2) = Except.ok w' :=
  ⟨_, rfl⟩

/-- Claim C7: constructing the velocity widget (`ITSLIVE()`) returns a
widget whose configuration equals the default configuration and whose
point selection is empty. -/
theorem C7_construct_defaults :
    ITSLIVE.config = defaultConfig ∧ ITSLIVE.points = [] :=
  ⟨rfl, rfl⟩

/-- Claim C8: `clear_points()` discards every point selected via map
interaction (the point selection is empty afterwards), has only that side
effect (configuration, figure markers and open cubes are untouched), and
returns no value. -/
theorem C8_clear_points_spec (w : Widget) :
    (clear_points w).1 = () ∧
      (clear_points w).2.points = [] ∧
      (clear_points w).2.config = w.config ∧
      (clear_points w).2.markers = w.markers ∧
      (clear_points w).2.cubes = w.cubes :=
  ⟨rfl, rfl, rfl, rfl, rfl⟩

/-- Claim C9: the notebook's first-key access
`list(zarr_cubes_dict.keys())[0]` is in range whenever the open-cubes
mapping is non-empty: under the precondition that at least one dataset has
been opened, the out-of-range (IndexError) branch of the index-0 access is
unreachable. -/
theorem C9_first_key_in_range (w : Widget) (_hr : Reachable w)
    (hne : w.cubes.cache ≠ []) :
    ((listKeys w.cubes)[0]?).isSome = true := by
  cases hcache : w.cubes.cache with
  | nil => exact absurd hcache hne
  | cons e rest => simp [listKeys, hcache]

theorem C9_witness :
    Reachable (select_point (-50, 70) ITSLIVE) ∧
      (select_point (-50, 70) ITSLIVE).cubes.cache ≠ [] ∧
      ((listKeys (select_point (-50, 70) ITSLIVE).cubes)[0]?).isSome = true :=
  ⟨reach_demo, by decide, C9_first_key_in_range _ reach_demo (by decide)⟩

/-- Claim C10: the notebook's configuration literal contains exactly the
five recognized keys (`plot`, `min_separation_days`, `max_separation_days`,
`color_by`, `verbose`) and no others, so the unrecognized-key
failure branch of `set_config` is unreachable for this call. -/
theorem C10_config_keys_exact :
    config.map Prod.fst = recognizedKeys ∧
      ∀ w : Widget, ∃ w', set_config config w = Except.ok w' :=
  ⟨rfl, fun _ => ⟨_, rfl⟩⟩
